import Mathlib

/-!
Verification development for the therapy booking and video call negotiation
client. The definitions below are shallow embeddings of the TypeScript
functions that mutate the Firestore collections: `bookSession`
(src/src/pages/patient/Therapists.tsx), `updateSessionStatus` and
`startVideoCall` and `respondToVideoCallRequest` and `endVideoCall`
(src/therapy-main/src/pages/therapist/Sessions.tsx), `requestVideoCall` and
the cooldown rendering guard (src/therapy-main/src/pages/patient/Sessions.tsx),
`removeSlot` (useTherapistSlots hook), and `createMeeting`
(src/therapy-main/src/components/VideoSDKCall.tsx). Timestamps are modelled
as Int milliseconds, document identifiers as String, and each Firestore
collection as a Lean list of records.
-/

namespace Therapy

/-- The status field of a session document: pending, confirmed, completed or
cancelled. -/
inductive SessionStatus
  | pending
  | confirmed
  | completed
  | cancelled
deriving DecidableEq, Repr

/-- The videoCallStatus field of a session document. Absence of the field is
modelled with Option at the use site. -/
inductive VCStatus
  | scheduled
  | active
  | ended
deriving DecidableEq, Repr

/-- The status field of the embedded videoCallRequest map. -/
inductive VCReqStatus
  | pending
  | accepted
  | declined
deriving DecidableEq, Repr

/-- The videoCallRequest map embedded in a session document. -/
structure VideoCallRequest where
  status : VCReqStatus
  requestedAt : Int
  respondedAt : Option Int
  requestedBy : String
deriving DecidableEq, Repr

/-- A document of the sessions collection, with the fields the lifecycle and
negotiation code reads and writes. -/
structure Session where
  id : String
  patientId : String
  therapistId : String
  slotId : Option String
  status : SessionStatus
  videoCallRoomId : Option String
  meetingId : Option String
  videoCallStatus : Option VCStatus
  videoCallRequest : Option VideoCallRequest
  videoCallStarted : Option Int
  videoCallEnded : Option Int
deriving DecidableEq, Repr

/-- A document of the therapistSlots collection. -/
structure Slot where
  id : String
  therapistId : String
  date : String
  timeRange : String
  isBooked : Bool
  bookedBy : Option String
  bookedAt : Option Int
deriving DecidableEq, Repr

/-- A document of the sessionNotes collection, written by
updateSessionStatus when a session is completed with a note draft. -/
structure NotesEntry where
  sessionId : String
  therapistId : String
  patientId : Option String
  content : String
deriving DecidableEq, Repr

/-- The Firestore state the embedded operations touch: the therapistSlots,
sessions and sessionNotes collections. -/
structure Store where
  slots : List Slot
  sessions : List Session
  notes : List NotesEntry
deriving DecidableEq, Repr

/-- updateDoc on a therapistSlots document: apply f to every slot whose id
matches (document ids are unique keys, so at most one matches). -/
def updateSlotDoc (slotId : String) (f : Slot → Slot) (slots : List Slot) : List Slot :=
  slots.map fun sl => if sl.id == slotId then f sl else sl

/-- The session document written by addDoc inside bookSession: status is
pending and the call fields are absent. -/
def mkBookedSession (newId patientId therapistId : String) (slot : Slot) : Session :=
  { id := newId
    patientId := patientId
    therapistId := therapistId
    slotId := some slot.id
    status := SessionStatus.pending
    videoCallRoomId := none
    meetingId := none
    videoCallStatus := none
    videoCallRequest := none
    videoCallStarted := none
    videoCallEnded := none }

/-- bookSession from src/src/pages/patient/Therapists.tsx lines 118 to 158:
addDoc creates the session document, then updateDoc sets the slot to
isBooked true with bookedBy and bookedAt. The function performs no read of
the current isBooked flag and no conditional write: both writes are applied
unconditionally. -/
def bookSession (patientId therapistId newSessionId : String) (slot : Slot)
    (now : Int) (st : Store) : Store :=
  let st1 : Store :=
    { st with sessions := st.sessions ++ [mkBookedSession newSessionId patientId therapistId slot] }
  { st1 with
      slots := updateSlotDoc slot.id
        (fun sl => { sl with isBooked := true, bookedBy := some patientId, bookedAt := some now })
        st1.slots }

/-- One store write issued by bookSession, at await granularity: the addDoc
of the session document, or the updateDoc of the slot document. -/
inductive StoreOp
  | addSession (ses : Session)
  | setBooked (slotId patientId : String) (now : Int)
deriving DecidableEq, Repr

/-- Apply a single store write. -/
def applyStoreOp (st : Store) : StoreOp → Store
  | StoreOp.addSession ses => { st with sessions := st.sessions ++ [ses] }
  | StoreOp.setBooked slotId patientId now =>
      { st with
          slots := updateSlotDoc slotId
            (fun sl => { sl with isBooked := true, bookedBy := some patientId, bookedAt := some now })
            st.slots }

/-- Apply a list of store writes in order. -/
def applyStoreOps (ops : List StoreOp) (st : Store) : Store :=
  ops.foldl applyStoreOp st

/-- The two store writes one bookSession call issues, in program order. -/
def bookOps (patientId therapistId newSessionId : String) (slot : Slot) (now : Int) :
    List StoreOp :=
  [StoreOp.addSession (mkBookedSession newSessionId patientId therapistId slot),
   StoreOp.setBooked slot.id patientId now]

/-- An arbitrary interleaving of the write sequences of two clients against
the shared store: each write lands atomically, program order per client is
preserved. -/
inductive Interleaving : List StoreOp → List StoreOp → List StoreOp → Prop
  | nil : Interleaving [] [] []
  | left {x : StoreOp} {xs ys zs : List StoreOp} :
      Interleaving xs ys zs → Interleaving (x :: xs) ys (x :: zs)
  | right {y : StoreOp} {xs ys zs : List StoreOp} :
      Interleaving xs ys zs → Interleaving xs (y :: ys) (y :: zs)

/-- Whether a store write creates a session satisfying p. -/
def opAddsSession (p : Session → Bool) : StoreOp → Bool
  | StoreOp.addSession ses => p ses
  | StoreOp.setBooked _ _ _ => false

theorem applyStoreOp_countP (p : Session → Bool) (st : Store) (op : StoreOp) :
    ((applyStoreOp st op).sessions.countP p) =
      st.sessions.countP p + (if opAddsSession p op then 1 else 0) := by
  cases op with
  | addSession ses =>
      simp [applyStoreOp, opAddsSession, List.countP_append, List.countP_cons, List.countP_nil]
  | setBooked slotId patientId now =>
      simp [applyStoreOp, opAddsSession]

theorem applyStoreOps_countP (p : Session → Bool) :
    ∀ (ops : List StoreOp) (st : Store),
      ((applyStoreOps ops st).sessions.countP p) =
        st.sessions.countP p + ops.countP (opAddsSession p) := by
  intro ops
  induction ops with
  | nil => intro st; simp [applyStoreOps]
  | cons op rest ih =>
      intro st
      have h1 : applyStoreOps (op :: rest) st = applyStoreOps rest (applyStoreOp st op) := rfl
      rw [h1, ih, applyStoreOp_countP]
      rw [List.countP_cons]
      omega

theorem interleaving_countP (q : StoreOp → Bool) :
    ∀ {xs ys zs : List StoreOp}, Interleaving xs ys zs →
      zs.countP q = xs.countP q + ys.countP q := by
  intro xs ys zs h
  induction h with
  | nil => simp
  | left _ ih =>
      rw [List.countP_cons, List.countP_cons, ih]
      omega
  | right _ ih =>
      rw [List.countP_cons, List.countP_cons, ih]
      omega

/-- A free slot as a therapist creates it. -/
def slotFree : Slot :=
  { id := "slot1"
    therapistId := "T"
    date := "2025-06-01"
    timeRange := "10:00 - 11:00"
    isBooked := false
    bookedBy := none
    bookedAt := none }

/-- Clearing the reservation fields of a slot, as written by the cancel
branch of updateSessionStatus. -/
def releaseSlot (sl : Slot) : Slot :=
  { sl with isBooked := false, bookedBy := none, bookedAt := none }

/-- updateSessionStatus from src/therapy-main/src/pages/therapist/Sessions.tsx
lines 185 to 230: look the session up in the local list, write the new
status unconditionally, release the bound slot when the new status is
cancelled, and append a sessionNotes document when the new status is
completed and a note draft is present. The function performs no check of
the current status. -/
def updateSessionStatus (therapistId sessionId : String) (newStatus : SessionStatus)
    (noteDraft : Option String) (st : Store) : Store :=
  let found := st.sessions.find? fun s => s.id == sessionId
  let sessions1 := st.sessions.map fun s =>
    if s.id == sessionId then { s with status := newStatus } else s
  let slots1 :=
    if newStatus == SessionStatus.cancelled then
      match found with
      | some ses =>
          match ses.slotId with
          | some k => updateSlotDoc k releaseSlot st.slots
          | none => st.slots
      | none => st.slots
    else st.slots
  let notes1 :=
    if newStatus == SessionStatus.completed then
      match noteDraft with
      | some content =>
          st.notes ++ [{ sessionId := sessionId
                         therapistId := therapistId
                         patientId := found.map Session.patientId
                         content := content }]
      | none => st.notes
    else st.notes
  { slots := slots1, sessions := sessions1, notes := notes1 }

/-- The status transitions the therapist sessions page offers for a session,
by the section it is rendered in: sessions with status pending get the
Accept Booking and Decline buttons (confirmed, cancelled), sessions with
status confirmed get the Mark Complete button (completed), and past
sessions (completed or cancelled) are rendered with no transition button. -/
def uiStatusTargets : SessionStatus → List SessionStatus
  | SessionStatus.pending => [SessionStatus.confirmed, SessionStatus.cancelled]
  | SessionStatus.confirmed => [SessionStatus.completed]
  | SessionStatus.completed => []
  | SessionStatus.cancelled => []

/-- Position of a status in the lifecycle order pending, confirmed,
terminal. -/
def statusRank : SessionStatus → Nat
  | SessionStatus.pending => 0
  | SessionStatus.confirmed => 1
  | SessionStatus.completed => 2
  | SessionStatus.cancelled => 2

/-- The five minute cooldown, in milliseconds, against a second video call
request while one is pending. -/
def cooldownMs : Int := 5 * 60 * 1000

/-- The cooldown check of the patient sessions page, lines 372 to 375: with
fiveMinutesAgo defined as now minus five minutes, the page allows a new
request only when requestedAt is strictly below fiveMinutesAgo. -/
def canRequestAgain (requestedAt now : Int) : Bool :=
  requestedAt < now - cooldownMs

/-- Whether the patient sessions page renders an enabled request button for
a confirmed session, as a function of the embedded videoCallRequest and the
current time: with no request the request button is offered; with a pending
request it is offered only when canRequestAgain holds, else a disabled
waiting button is rendered; after a decline it is offered unconditionally;
after an accept the join controls are rendered instead. -/
def requestOffered (req : Option VideoCallRequest) (now : Int) : Bool :=
  match req with
  | none => true
  | some r =>
      match r.status with
      | VCReqStatus.pending => canRequestAgain r.requestedAt now
      | VCReqStatus.declined => true
      | VCReqStatus.accepted => false

/-- requestVideoCall from src/therapy-main/src/pages/patient/Sessions.tsx
lines 67 to 101: overwrite the videoCallRequest map with a fresh pending
request. The function itself performs no cooldown check. -/
def requestVideoCall (uid : String) (now : Int) (ses : Session) : Session :=
  { ses with
      videoCallRequest := some
        { status := VCReqStatus.pending
          requestedAt := now
          respondedAt := none
          requestedBy := uid } }

/-- Result of one startVideoCall invocation: the session document after the
call, whether createMeeting was invoked against the provider, and the value
the caller observes (the fresh room id, or none when provisioning failed). -/
structure StartResult where
  session : Session
  providerCalled : Bool
  returned : Option String
deriving DecidableEq, Repr

/-- startVideoCall from src/therapy-main/src/pages/therapist/Sessions.tsx
lines 232 to 273: createMeeting is always invoked first; when it fails
(fetch throws or no roomId comes back) the function throws before any
updateDoc, so the session document is unchanged; when it returns a room id
the session is written with videoCallStarted, videoCallStatus active, and
both videoCallRoomId and meetingId set to the fresh room id, overwriting
any previous value. No check of the current videoCallStatus or of an
existing room handle is performed. -/
def startVideoCall (providerRoom : Option String) (now : Int) (ses : Session) :
    StartResult :=
  match providerRoom with
  | none => { session := ses, providerCalled := true, returned := none }
  | some mid =>
      { session :=
          { ses with
              videoCallStarted := some now
              videoCallStatus := some VCStatus.active
              videoCallRoomId := some mid
              meetingId := some mid }
        providerCalled := true
        returned := some mid }

/-- The decision argument of respondToVideoCallRequest. -/
inductive RespondDecision
  | accepted
  | declined
deriving DecidableEq, Repr

/-- The request status a respond decision writes. -/
def RespondDecision.toStatus : RespondDecision → VCReqStatus
  | RespondDecision.accepted => VCReqStatus.accepted
  | RespondDecision.declined => VCReqStatus.declined

/-- respondToVideoCallRequest from
src/therapy-main/src/pages/therapist/Sessions.tsx lines 71 to 109: write
the decision and respondedAt into the embedded videoCallRequest map; the
returned flag records whether the function scheduled startVideoCall (the
setTimeout branch), which it does exactly when the decision is accepted. -/
def respondToVideoCallRequest (decision : RespondDecision) (now : Int) (ses : Session) :
    Session × Bool :=
  ({ ses with
      videoCallRequest := ses.videoCallRequest.map fun r =>
        { r with status := decision.toStatus, respondedAt := some now } },
   decision == RespondDecision.accepted)

/-- The composite operation the therapist page performs on a respond: the
request update followed, on accept, by the scheduled startVideoCall. -/
def respondAndActivate (decision : RespondDecision) (providerRoom : Option String)
    (now : Int) (ses : Session) : Session :=
  let step := respondToVideoCallRequest decision now ses
  if step.2 then (startVideoCall providerRoom now step.1).session else step.1

/-- endVideoCall from src/therapy-main/src/pages/therapist/Sessions.tsx
lines 275 to 295: write videoCallEnded and set videoCallStatus to ended. -/
def endVideoCall (now : Int) (ses : Session) : Session :=
  { ses with videoCallEnded := some now, videoCallStatus := some VCStatus.ended }

/-- One invocation of a session mutating function of the client code,
applied to a single session document. -/
inductive SessionOp
  | updateStatus (newStatus : SessionStatus)
  | requestCall (uid : String) (now : Int)
  | respondCall (decision : RespondDecision) (now : Int)
  | startCall (providerRoom : Option String) (now : Int)
  | endCall (now : Int)
deriving DecidableEq, Repr

/-- Apply one operation to a session document, following the corresponding
source function. -/
def applySessionOp (ses : Session) : SessionOp → Session
  | SessionOp.updateStatus newStatus => { ses with status := newStatus }
  | SessionOp.requestCall uid now => requestVideoCall uid now ses
  | SessionOp.respondCall decision now => (respondToVideoCallRequest decision now ses).1
  | SessionOp.startCall providerRoom now => (startVideoCall providerRoom now ses).session
  | SessionOp.endCall now => endVideoCall now ses

/-- Run a list of operations on a session document, in order. -/
def runSession (ops : List SessionOp) (ses : Session) : Session :=
  ops.foldl applySessionOp ses

/-- Whether the therapist page offers the Start Video Call button for a
session: the button is rendered only in the confirmed section and is
disabled while a videoCallRequest is pending. -/
def startCallOffered (ses : Session) : Bool :=
  ses.status == SessionStatus.confirmed &&
    !(ses.videoCallRequest.any fun r => r.status == VCReqStatus.pending)

/-- Whether the therapist page offers the Accept and Decline controls for a
video call request: rendered only in the confirmed section and only while
the request is pending. -/
def respondOffered (ses : Session) : Bool :=
  ses.status == SessionStatus.confirmed &&
    (ses.videoCallRequest.any fun r => r.status == VCReqStatus.pending)

/-- Whether the patient page offers an enabled request button: the call
controls are rendered only for sessions with status confirmed, then gated
by requestOffered. -/
def patientRequestControls (ses : Session) (now : Int) : Bool :=
  ses.status == SessionStatus.confirmed && requestOffered ses.videoCallRequest now

/-- removeSlot from the useTherapistSlots hook: deleteDoc on the slot
document, unconditionally; no check of isBooked and no error case. -/
def removeSlot (slotId : String) (slots : List Slot) : List Slot :=
  slots.filter fun sl => !(sl.id == slotId)

/-- Whether the slots page offers an enabled remove button for a slot: the
Trash button is rendered with disabled set to slot.isBooked. -/
def removeOffered (sl : Slot) : Bool :=
  !sl.isBooked

/-! Concrete fixtures used by the claim theorems and their witnesses. -/

/-- The slot of slotFree after patientA has reserved it. -/
def slotTaken : Slot :=
  { slotFree with isBooked := true, bookedBy := some "patientA", bookedAt := some 5 }

/-- The session patientA created by booking slotFree. -/
def sessionA : Session :=
  mkBookedSession "sesA" "patientA" "T" slotFree

/-- A store holding the reserved slot and the session of patientA. -/
def storeTaken : Store :=
  { slots := [slotTaken], sessions := [sessionA], notes := [] }

/-- The store before any booking: one free slot, no sessions. -/
def storeEmpty : Store :=
  { slots := [slotFree], sessions := [], notes := [] }

/-- A pending video call request issued at time t by patientA. -/
def pendingReqAt (t : Int) : VideoCallRequest :=
  { status := VCReqStatus.pending, requestedAt := t, respondedAt := none, requestedBy := "patientA" }

/-- An accepted video call request. -/
def acceptedReq : VideoCallRequest :=
  { status := VCReqStatus.accepted, requestedAt := 0, respondedAt := some 1, requestedBy := "patientA" }

/-- A confirmed session whose call is already active with room handle
room1 and an accepted negotiation. -/
def activeSession : Session :=
  { sessionA with
      status := SessionStatus.confirmed
      videoCallStatus := some VCStatus.active
      videoCallRoomId := some "room1"
      meetingId := some "room1"
      videoCallStarted := some 2
      videoCallRequest := some acceptedReq }

/-- A confirmed session with a pending video call request from time 0. -/
def requestedSession : Session :=
  { sessionA with
      status := SessionStatus.confirmed
      videoCallRequest := some (pendingReqAt 0) }

/-- Claim C1: bookSession is claimed to fail with Conflict on a slot with
isBooked true, creating no session and changing no slot state. The code
performs no such check: booking the already reserved slotTaken still
creates a second session document and overwrites the reservation fields of
the slot with the new patient. -/
theorem bookSession_ignores_reservation :
    slotTaken.isBooked = true ∧
    (bookSession "patientB" "T" "sesB" slotTaken 9 storeTaken).sessions.length = 2 ∧
    (bookSession "patientB" "T" "sesB" slotTaken 9 storeTaken).slots =
      [{ slotTaken with bookedBy := some "patientB", bookedAt := some 9 }] := by
  decide

/-- Claim C2: under every interleaving of the two store writes issued by
two concurrent bookSession calls on the same free slot, both calls succeed:
the final store holds two session documents referencing the slot, refuting
the claimed exactly one winner semantics; the slot write is a blind
updateDoc, not a conditional write. -/
theorem booking_race_both_succeed (zs : List StoreOp)
    (h : Interleaving (bookOps "patientA" "T" "sesA" slotFree 1)
          (bookOps "patientB" "T" "sesB" slotFree 2) zs) :
    ((applyStoreOps zs storeEmpty).sessions.countP
      (fun ses => ses.slotId == some "slot1")) = 2 := by
  rw [applyStoreOps_countP]
  rw [interleaving_countP (opAddsSession fun ses => ses.slotId == some "slot1") h]
  decide

theorem booking_race_both_succeed_witness :
    ((applyStoreOps
        (bookOps "patientA" "T" "sesA" slotFree 1 ++ bookOps "patientB" "T" "sesB" slotFree 2)
        storeEmpty).sessions.countP
      (fun ses => ses.slotId == some "slot1")) = 2 :=
  booking_race_both_succeed _
    (Interleaving.left (Interleaving.left
      (Interleaving.right (Interleaving.right Interleaving.nil))))

/-- A completed session bound to slotTaken, and a store holding it. -/
def sessionDone : Session :=
  { sessionA with status := SessionStatus.completed }

/-- A store holding the reserved slot and the completed session. -/
def storeDone : Store :=
  { slots := [slotTaken], sessions := [sessionDone], notes := [] }

/-- Claim C3 counterexample: updateSessionStatus applied to a session whose
status is completed with new status confirmed overwrites the terminal
status instead of failing with TerminalState and leaving it unchanged. -/
theorem terminal_status_overwritten :
    sessionDone.status = SessionStatus.completed ∧
    ((updateSessionStatus "T" "sesA" SessionStatus.confirmed none storeDone).sessions.map
      Session.status) = [SessionStatus.confirmed] := by
  decide

/-- Claim C3 (amended): updateSessionStatus itself applies any requested
status unconditionally and no TerminalState error exists; the lifecycle
order is enforced only by the page, which renders transition buttons solely
for pending sessions (Accept, Decline) and confirmed sessions (Mark
Complete). Every transition offered by the page strictly advances the
lifecycle rank and never returns to pending, and terminal sessions are
offered no transition at all, so the status sequence observed through the
rendered controls is a subsequence of pending, confirmed,
completed-or-cancelled. -/
theorem ui_transitions_follow_lifecycle (s t : SessionStatus)
    (h : t ∈ uiStatusTargets s) :
    statusRank s < statusRank t ∧ t ≠ SessionStatus.pending ∧
      uiStatusTargets SessionStatus.completed = [] ∧
      uiStatusTargets SessionStatus.cancelled = [] := by
  cases s <;> cases t <;> simp_all [uiStatusTargets, statusRank]

theorem ui_transitions_follow_lifecycle_witness :
    statusRank SessionStatus.pending < statusRank SessionStatus.confirmed ∧
      SessionStatus.confirmed ≠ SessionStatus.pending ∧
      uiStatusTargets SessionStatus.completed = [] ∧
      uiStatusTargets SessionStatus.cancelled = [] :=
  ui_transitions_follow_lifecycle SessionStatus.pending SessionStatus.confirmed (by decide)

/-- Claim C4: cancelling a session that is bound to a slot releases the
slot: after updateSessionStatus with new status cancelled, every slot
document carrying the bound slot id has isBooked false and cleared
bookedBy and bookedAt. -/
theorem cancel_releases_bound_slot (therapistId sessionId k : String)
    (st : Store) (ses : Session)
    (hfind : st.sessions.find? (fun s => s.id == sessionId) = some ses)
    (hslot : ses.slotId = some k) :
    ∀ sl ∈ (updateSessionStatus therapistId sessionId SessionStatus.cancelled none st).slots,
      sl.id = k → sl.isBooked = false ∧ sl.bookedBy = none ∧ sl.bookedAt = none := by
  intro sl hmem hid
  have hslots : (updateSessionStatus therapistId sessionId SessionStatus.cancelled none st).slots
      = updateSlotDoc k releaseSlot st.slots := by
    simp [updateSessionStatus, hfind, hslot]
  rw [hslots] at hmem
  simp only [updateSlotDoc, List.mem_map] at hmem
  obtain ⟨sl0, _, hEq⟩ := hmem
  rcases hb : (sl0.id == k) with _ | _
  · rw [hb] at hEq
    simp only [Bool.false_eq_true, if_false] at hEq
    subst hEq
    rw [hid] at hb
    simp at hb
  · rw [hb] at hEq
    simp only [if_true] at hEq
    subst hEq
    exact ⟨rfl, rfl, rfl⟩

theorem cancel_releases_bound_slot_witness :
    (releaseSlot slotTaken).isBooked = false ∧ (releaseSlot slotTaken).bookedBy = none ∧
      (releaseSlot slotTaken).bookedAt = none :=
  cancel_releases_bound_slot "T" "sesA" "slot1" storeTaken sessionA (by decide) rfl
    (releaseSlot slotTaken) (by decide) rfl

/-- Claim C5 counterexample: at exactly five minutes elapsed since
requestedAt the page still does not offer a new request, although the claim
says a request made once at least five minutes have elapsed succeeds; the
guard of the code is strict (requestedAt below now minus five minutes). -/
theorem cooldown_boundary_rejected :
    requestOffered (some (pendingReqAt 0)) 300000 = false ∧
      (300000 : Int) - (pendingReqAt 0).requestedAt = cooldownMs := by
  decide

/-- Claim C5 (amended): the cooldown guard lives in the rendering of the
patient page, not in requestVideoCall, and there is no RequestInFlight
error: while a request is pending an enabled request button is offered
exactly when strictly more than five minutes have elapsed (otherwise a
disabled waiting button is rendered); with no negotiation or after a
decline the request button is always offered; and requestVideoCall itself
unconditionally overwrites the request map with a fresh pending request. -/
theorem request_guard_behaviour (r : VideoCallRequest) (now : Int) (uid : String)
    (ses : Session) :
    requestOffered none now = true ∧
    requestOffered (some { r with status := VCReqStatus.declined }) now = true ∧
    (requestOffered (some { r with status := VCReqStatus.pending }) now = true ↔
      r.requestedAt < now - cooldownMs) ∧
    (requestVideoCall uid now ses).videoCallRequest =
      some { status := VCReqStatus.pending, requestedAt := now, respondedAt := none,
             requestedBy := uid } := by
  refine ⟨rfl, rfl, ?_, rfl⟩
  simp [requestOffered, canRequestAgain]

theorem request_guard_behaviour_witness :
    requestOffered none 0 = true ∧
    requestOffered (some { pendingReqAt 0 with status := VCReqStatus.declined }) 0 = true ∧
    (requestOffered (some { pendingReqAt 0 with status := VCReqStatus.pending }) 0 = true ↔
      (pendingReqAt 0).requestedAt < 0 - cooldownMs) ∧
    (requestVideoCall "patientA" 0 sessionA).videoCallRequest =
      some { status := VCReqStatus.pending, requestedAt := 0, respondedAt := none,
             requestedBy := "patientA" } :=
  request_guard_behaviour (pendingReqAt 0) 0 "patientA" sessionA

/-- Claim C6 counterexample: startVideoCall on a session that is already
active with room handle room1 invokes the provider again and overwrites the
stored handle with the fresh room id, instead of being a no-op returning
the existing handle. -/
theorem reactivation_provisions_again :
    activeSession.videoCallStatus = some VCStatus.active ∧
    activeSession.videoCallRoomId = some "room1" ∧
    (startVideoCall (some "room2") 10 activeSession).providerCalled = true ∧
    (startVideoCall (some "room2") 10 activeSession).session.videoCallRoomId = some "room2" ∧
    (some "room2" : Option String) ≠ some "room1" := by
  decide

/-- Claim C6 (amended): activation is not idempotent: every startVideoCall
invocation calls the provider to create a room, and on success stores the
fresh room id in videoCallRoomId and meetingId, overwriting any existing
handle, with no check of the current call state. -/
theorem activation_always_provisions (ses : Session) (mid : String) (now : Int) :
    (startVideoCall (some mid) now ses).providerCalled = true ∧
    (startVideoCall none now ses).providerCalled = true ∧
    (startVideoCall (some mid) now ses).session.videoCallRoomId = some mid ∧
    (startVideoCall (some mid) now ses).session.meetingId = some mid :=
  ⟨rfl, rfl, rfl, rfl⟩

/-- Claim C7: when room provisioning fails (createMeeting throws or returns
no room id) startVideoCall throws before the session write: the session
document is returned unchanged, so the negotiation state and
videoCallStatus are untouched, and the caller observes no room id. -/
theorem provision_failure_no_mutation (ses : Session) (now : Int) :
    (startVideoCall none now ses).session = ses ∧
    (startVideoCall none now ses).returned = none :=
  ⟨rfl, rfl⟩

theorem applySessionOp_preserves_room (ses : Session) (op : SessionOp)
    (h : ses.videoCallStatus = some VCStatus.active → ses.videoCallRoomId.isSome = true) :
    (applySessionOp ses op).videoCallStatus = some VCStatus.active →
      (applySessionOp ses op).videoCallRoomId.isSome = true := by
  cases op with
  | updateStatus n => simpa [applySessionOp] using h
  | requestCall uid now => simpa [applySessionOp, requestVideoCall] using h
  | respondCall d now => simpa [applySessionOp, respondToVideoCallRequest] using h
  | startCall pr now =>
      cases pr with
      | none => simpa [applySessionOp, startVideoCall] using h
      | some mid => intro _; simp [applySessionOp, startVideoCall]
  | endCall now => intro ha; simp [applySessionOp, endVideoCall] at ha

theorem runSession_active_room (ops : List SessionOp) : ∀ (ses : Session),
    (ses.videoCallStatus = some VCStatus.active → ses.videoCallRoomId.isSome = true) →
    (runSession ops ses).videoCallStatus = some VCStatus.active →
      (runSession ops ses).videoCallRoomId.isSome = true := by
  induction ops with
  | nil => intro ses h; exact h
  | cons op rest ih =>
      intro ses h
      exact ih (applySessionOp ses op) (applySessionOp_preserves_room ses op h)

/-- Claim C8 (amended): in every session state reachable from a fresh
booking by the session mutating operations of the client, an active
videoCallStatus implies a stored room handle; and the call negotiation
controls (Start Video Call and Accept and Decline on the therapist page,
the request button on the patient page) are offered only for sessions with
status confirmed. An active call does NOT imply an accepted negotiation:
see the counterexample. -/
theorem active_room_and_confirmed_guard (ops : List SessionOp) (sid p t : String)
    (slot : Slot) (ses : Session) (now : Int) :
    ((runSession ops (mkBookedSession sid p t slot)).videoCallStatus = some VCStatus.active →
      (runSession ops (mkBookedSession sid p t slot)).videoCallRoomId.isSome = true) ∧
    (startCallOffered ses = true → ses.status = SessionStatus.confirmed) ∧
    (respondOffered ses = true → ses.status = SessionStatus.confirmed) ∧
    (patientRequestControls ses now = true → ses.status = SessionStatus.confirmed) := by
  refine ⟨runSession_active_room ops _ (by intro hc; simp [mkBookedSession] at hc), ?_, ?_, ?_⟩
  · intro h
    simp only [startCallOffered, Bool.and_eq_true, beq_iff_eq] at h
    exact h.1
  · intro h
    simp only [respondOffered, Bool.and_eq_true, beq_iff_eq] at h
    exact h.1
  · intro h
    simp only [patientRequestControls, Bool.and_eq_true, beq_iff_eq] at h
    exact h.1

theorem active_room_and_confirmed_guard_witness :
    (runSession [SessionOp.updateStatus SessionStatus.confirmed,
        SessionOp.startCall (some "room1") 3] sessionA).videoCallRoomId.isSome = true ∧
    activeSession.status = SessionStatus.confirmed :=
  ⟨(active_room_and_confirmed_guard
      [SessionOp.updateStatus SessionStatus.confirmed, SessionOp.startCall (some "room1") 3]
      "sesA" "patientA" "T" slotFree activeSession 0).1 (by decide),
   (active_room_and_confirmed_guard
      [SessionOp.updateStatus SessionStatus.confirmed, SessionOp.startCall (some "room1") 3]
      "sesA" "patientA" "T" slotFree activeSession 0).2.1 (by decide)⟩

/-- Claim C8 counterexample: a reachable state in which the call is active
but no negotiation exists at all (the therapist confirmed the booking and
pressed Start Video Call, which the page offers when no request is
pending), refuting the claimed implication from active to an accepted
negotiation. -/
theorem active_without_accepted_negotiation :
    (runSession [SessionOp.updateStatus SessionStatus.confirmed,
        SessionOp.startCall (some "room1") 3] sessionA).videoCallStatus = some VCStatus.active ∧
    (runSession [SessionOp.updateStatus SessionStatus.confirmed,
        SessionOp.startCall (some "room1") 3] sessionA).videoCallRequest = none ∧
    startCallOffered (runSession [SessionOp.updateStatus SessionStatus.confirmed] sessionA)
      = true := by
  decide

/-- Claim C9 counterexample: removeSlot on a reserved slot (isBooked true)
deletes the slot document; there is no SlotInUse failure in the code. -/
theorem remove_deletes_reserved_slot :
    slotTaken.isBooked = true ∧ removeSlot "slot1" [slotTaken] = [] := by
  decide

/-- Claim C9 (amended): removal of a reserved slot is prevented only by the
user interface: the remove button is enabled exactly for slots with
isBooked false, while the removeSlot function itself deletes every slot
carrying the given id unconditionally and raises no SlotInUse error. -/
theorem remove_guard_and_unconditional_delete (sl : Slot) (slotId : String)
    (slots : List Slot) :
    (removeOffered sl = true → sl.isBooked = false) ∧
    (sl ∈ removeSlot slotId slots → ¬ sl.id = slotId) := by
  constructor
  · intro h
    simpa [removeOffered] using h
  · intro hmem
    simp only [removeSlot, List.mem_filter, Bool.not_eq_true', beq_eq_false_iff_ne,
      ne_eq] at hmem
    exact hmem.2

theorem remove_guard_and_unconditional_delete_witness :
    slotFree.isBooked = false ∧ ¬ slotFree.id = "slotX" :=
  ⟨(remove_guard_and_unconditional_delete slotFree "slotX" [slotFree]).1 (by decide),
   (remove_guard_and_unconditional_delete slotFree "slotX" [slotFree]).2 (by decide)⟩

/-- Claim C10: accepting a call request is fused with activation: the
respond operation schedules startVideoCall exactly when the decision is
accepted (and not on decline), and the composite operation leaves the
session with the request accepted, the call active and the fresh room
handle stored, so the accepted but not active state is only transient on
the therapist side. -/
theorem accept_fuses_activation (ses : Session) (r : VideoCallRequest) (now : Int)
    (mid : String) (hreq : ses.videoCallRequest = some r) :
    (respondToVideoCallRequest RespondDecision.accepted now ses).2 = true ∧
    (respondToVideoCallRequest RespondDecision.declined now ses).2 = false ∧
    (respondAndActivate RespondDecision.accepted (some mid) now ses).videoCallRequest =
      some { r with status := VCReqStatus.accepted, respondedAt := some now } ∧
    (respondAndActivate RespondDecision.accepted (some mid) now ses).videoCallStatus =
      some VCStatus.active ∧
    (respondAndActivate RespondDecision.accepted (some mid) now ses).videoCallRoomId =
      some mid := by
  refine ⟨rfl, rfl, ?_, ?_, ?_⟩ <;>
    simp [respondAndActivate, respondToVideoCallRequest, startVideoCall,
      RespondDecision.toStatus, hreq]

theorem accept_fuses_activation_witness :
    (respondToVideoCallRequest RespondDecision.accepted 7 requestedSession).2 = true ∧
    (respondToVideoCallRequest RespondDecision.declined 7 requestedSession).2 = false ∧
    (respondAndActivate RespondDecision.accepted (some "room1") 7
        requestedSession).videoCallRequest =
      some { pendingReqAt 0 with status := VCReqStatus.accepted, respondedAt := some 7 } ∧
    (respondAndActivate RespondDecision.accepted (some "room1") 7
        requestedSession).videoCallStatus = some VCStatus.active ∧
    (respondAndActivate RespondDecision.accepted (some "room1") 7
        requestedSession).videoCallRoomId = some "room1" :=
  accept_fuses_activation requestedSession (pendingReqAt 0) 7 "room1" rfl

end Therapy
